import Mathlib

/-!
# Verification of the `annoote` note page controller

A shallow embedding of `src/src/app/[noteID]/page.tsx`, the single source
file of the repository.  The React component `NotePage` is modelled as a
state machine: `ControllerState` carries the `useState` hooks of the
component together with explicit bookkeeping for in-flight asynchronous
operations (the pending `getDoc`, `updateDoc`, `deleteDoc` and clipboard
promises), and `step` maps an incoming event (a user interaction or the
resolution of a pending promise) to the next state together with the list
of externally observable effects (store calls, navigation, alerts,
clipboard writes).

Each arm of `step` is a direct transcription of the corresponding handler
in the source; guard conditions encode `disabled={...}` attributes,
conditional rendering (`{showDropdown && ...}`) and the fact that a
full-screen modal overlay (`fixed inset-0 ... z-50`) intercepts pointer
interaction with the surfaces beneath it.
-/

namespace Annoote

/-- Calendar timestamp, the model of a Firestore `Timestamp` after
`toDate()`; only the calendar fields matter for `format(date, "yyyy-MM-dd")`. -/
structure Timestamp where
  year : Nat
  month : Nat
  day : Nat
deriving DecidableEq

/-- Firestore document data for a note: shape `{ content?: string, createdAt?: Timestamp }`.
`none` models an absent (or `null`/`undefined`) field. -/
structure NoteData where
  content : Option String
  createdAt : Option Timestamp
deriving DecidableEq

/-- Result of the `getDoc` call in `fetchNote`: the document exists with data,
it does not exist (`!noteDoc.exists()`), or the awaited promise rejects. -/
inductive FetchOutcome
  | success (data : NoteData)
  | notFound
  | failure
deriving DecidableEq

/-- JavaScript `a || b` on an optional string: `undefined`/`null` and the
empty string are falsy, so both select the fallback `b`
(line 39: `noteData?.content || ""`). -/
def jsOrString : Option String → String → String
  | none, b => b
  | some s, b => if s = "" then b else s

/-! ### Date formatting (`format(date, "yyyy-MM-dd")` from date-fns) -/

/-- Decimal digit character for `n < 10`. -/
def digitChar (n : Nat) : Char := Char.ofNat (48 + n)

/-- Decimal digit characters of a natural number, most significant first. -/
def natDigits (n : Nat) : List Char :=
  if _h : n < 10 then [digitChar n]
  else natDigits (n / 10) ++ [digitChar (n % 10)]
decreasing_by exact Nat.div_lt_self (by omega) (by omega)

/-- Left-pad a character list with `'0'` to width `k`. -/
def padLeft (k : Nat) (cs : List Char) : List Char :=
  List.replicate (k - cs.length) '0' ++ cs

/-- Model of date-fns `format(date, "yyyy-MM-dd")` (line 44): four-digit
zero-padded year, two-digit zero-padded month and day, joined by dashes. -/
def formatYYYYMMDD (t : Timestamp) : String :=
  String.mk (padLeft 4 (natDigits t.year) ++
    '-' :: padLeft 2 (natDigits t.month) ++
    '-' :: padLeft 2 (natDigits t.day))

/-- Recogniser for ten-character strings of shape `YYYY-MM-DD`. -/
def isYYYYMMDDChars : List Char → Bool
  | [y1, y2, y3, y4, s1, m1, m2, s2, d1, d2] =>
      y1.isDigit && y2.isDigit && y3.isDigit && y4.isDigit && s1 == '-' &&
      m1.isDigit && m2.isDigit && s2 == '-' && d1.isDigit && d2.isDigit
  | _ => false

/-- String-level wrapper of `isYYYYMMDDChars`. -/
def isYYYYMMDD (s : String) : Bool := isYYYYMMDDChars s.data

/-! ### Controller state

The `useState` hooks of `NotePage` (lines 18-24), extended with explicit
flags for promises the component has started but not yet settled, and with
`locationHref` for `window.location.href` (line 100). -/

/-- Local state of one mounted `NotePage` instance. -/
structure ControllerState where
  /-- `noteContent` (line 18): the single text value, serving both as the
  persisted content shown in Viewing and as the draft edited in the textarea. -/
  noteContent : String
  /-- `createdAt` (line 19): formatted creation-date string, `none` until the
  fetch settles. -/
  createdAt : Option String
  /-- `loading` (line 20): true while a fetch, save or delete is in flight;
  drives `disabled={loading}` on the Edit/Save and Delete buttons. -/
  loading : Bool
  /-- `isEditing` (line 21). -/
  isEditing : Bool
  /-- `showDropdown` (line 22): options-menu visibility. -/
  showDropdown : Bool
  /-- `showModal` (line 23): delete-confirmation modal visibility. -/
  showModal : Bool
  /-- `showCopyModal` (line 24): copy-confirmation modal visibility. -/
  showCopyModal : Bool
  /-- The mount-time `getDoc` of `fetchNote` (line 32) has not settled yet. -/
  fetchPending : Bool
  /-- An `updateDoc` started by `handleEditOrSave` (line 86) has not settled yet. -/
  savePending : Bool
  /-- A `deleteDoc` started by `handleDelete` (line 110) has not settled yet. -/
  deletePending : Bool
  /-- Number of unsettled `navigator.clipboard.writeText` promises (line 100). -/
  clipboardPending : Nat
  /-- `window.location.href`, the note's own URL. -/
  locationHref : String
deriving DecidableEq

/-- Externally observable effects emitted by a transition. -/
inductive Effect
  /-- `updateDoc(doc(db, "notes", noteID), { content })` (line 86). -/
  | storeUpdate (content : String)
  /-- `deleteDoc(doc(db, "notes", noteID))` (line 110). -/
  | storeDelete
  /-- `navigator.clipboard.writeText(text)` (line 100). -/
  | clipboardWrite (text : String)
  /-- `router.push("/")` (lines 34, 50, 111). -/
  | navigateHome
  /-- `alert(msg)` (lines 90, 102, 114): a user-visible failure notice. -/
  | alertMsg (msg : String)
  /-- `console.error(...)` (lines 49, 89, 113): not user-visible. -/
  | consoleError
deriving DecidableEq

/-- Events driving the controller: user interactions on rendered, enabled
controls, and settlements of promises the component awaited. -/
inductive Event
  /-- The awaited `getDoc` of `fetchNote` settles (lines 32-53). -/
  | fetchResolve (outcome : FetchOutcome)
  /-- Click on the Edit/Save button (line 130). -/
  | clickEditOrSave
  /-- The awaited `updateDoc` of `handleEditOrSave` settles (lines 86-93). -/
  | saveResolve (ok : Bool)
  /-- Click on the options-menu trigger button (line 152). -/
  | toggleDropdown
  /-- `mousedown` outside the open dropdown and its trigger (lines 60-69). -/
  | outsideMousedown
  /-- Click on the dropdown's Copy URL item, running `handleCopyURL`
  synchronously (lines 99-105). -/
  | clickCopyURL
  /-- A clipboard `writeText` promise settles, running one of the two `then`
  callbacks (lines 101-102). -/
  | clipboardResolve (ok : Bool)
  /-- Click on the dropdown's Delete item (lines 169-172). -/
  | clickDeleteItem
  /-- Click on the delete modal's Cancel button (line 204). -/
  | clickCancelDelete
  /-- Click on the delete modal's Delete button, running `handleDelete`
  (line 210). -/
  | clickConfirmDelete
  /-- The awaited `deleteDoc` of `handleDelete` settles (lines 110-118). -/
  | deleteResolve (ok : Bool)
  /-- Click on the copy modal's OK button (line 228). -/
  | clickDismissCopy
  /-- `onChange` of the editing textarea (line 185). -/
  | setDraft (text : String)
deriving DecidableEq

/-- A full-screen modal overlay (`fixed inset-0 ... z-50`, lines 198, 222)
is on top of every other control, so pointer interaction with the header
buttons, the dropdown and the textarea is blocked while one is shown. -/
def modalBlocked (s : ControllerState) : Bool := s.showModal || s.showCopyModal

/-- The `disabled={loading}` attribute of the Edit/Save button (line 131). -/
def editSaveDisabled (s : ControllerState) : Bool := s.loading

/-- Continuation of `fetchNote` once `getDoc` settles (lines 33-53):
missing document or rejection navigates home, success populates
`noteContent` (via `noteData?.content || ""`) and `createdAt`
(`format(date, "yyyy-MM-dd")` when the timestamp is truthy, otherwise the
literal `"Unknown"`); the `finally` clears `loading` in every case. -/
def fetchNoteResult (s : ControllerState) : FetchOutcome → ControllerState × List Effect
  | .success data =>
    ({ s with fetchPending := false, loading := false,
              noteContent := jsOrString data.content "",
              createdAt := some (match data.createdAt with
                | some t => formatYYYYMMDD t
                | none => "Unknown") }, [])
  | .notFound =>
    ({ s with fetchPending := false, loading := false }, [.navigateHome])
  | .failure =>
    ({ s with fetchPending := false, loading := false }, [.consoleError, .navigateHome])

/-- Synchronous part of `handleEditOrSave` (lines 82-97): in Editing it sets
`loading` and starts the `updateDoc` with the current `noteContent`;
otherwise it enters Editing. -/
def handleEditOrSave (s : ControllerState) : ControllerState × List Effect :=
  if s.isEditing then
    ({ s with loading := true, savePending := true }, [.storeUpdate s.noteContent])
  else
    ({ s with isEditing := true }, [])

/-- Continuation of `handleEditOrSave` once `updateDoc` settles (lines 87-93):
success leaves Editing; rejection logs, alerts and stays in Editing; the
`finally` clears `loading` in both cases. -/
def handleEditOrSaveResult (s : ControllerState) (ok : Bool) :
    ControllerState × List Effect :=
  if ok then
    ({ s with savePending := false, isEditing := false, loading := false }, [])
  else
    ({ s with savePending := false, loading := false },
     [.consoleError, .alertMsg "Failed to save the note."])

/-- `handleCopyURL` (lines 99-105): starts the clipboard write of
`window.location.href` and synchronously closes the dropdown; the `then`
callbacks run later, at `clipboardResolve`. -/
def handleCopyURL (s : ControllerState) : ControllerState × List Effect :=
  ({ s with clipboardPending := s.clipboardPending + 1, showDropdown := false },
   [.clipboardWrite s.locationHref])

/-- One clipboard promise settles (lines 101-102): fulfilment shows the copy
modal, rejection alerts. -/
def handleCopyURLResult (s : ControllerState) (ok : Bool) :
    ControllerState × List Effect :=
  if ok then
    ({ s with clipboardPending := s.clipboardPending - 1, showCopyModal := true }, [])
  else
    ({ s with clipboardPending := s.clipboardPending - 1 },
     [.alertMsg "Failed to copy URL."])

/-- Synchronous part of `handleDelete` (lines 107-110): sets `loading` and
starts the `deleteDoc`. -/
def handleDelete (s : ControllerState) : ControllerState × List Effect :=
  ({ s with loading := true, deletePending := true }, [.storeDelete])

/-- Continuation of `handleDelete` once `deleteDoc` settles (lines 110-118):
success navigates home, rejection logs and alerts; the `finally` clears
`loading` and closes the confirmation modal in both cases. -/
def handleDeleteResult (s : ControllerState) (ok : Bool) :
    ControllerState × List Effect :=
  if ok then
    ({ s with deletePending := false, loading := false, showModal := false },
     [.navigateHome])
  else
    ({ s with deletePending := false, loading := false, showModal := false },
     [.consoleError, .alertMsg "Failed to delete the note."])

/-- One controller transition.  Guards state when each event can occur: a
promise settlement requires the matching pending flag; a click requires its
control to be rendered (conditional rendering), enabled (`disabled={...}`)
and not covered by a full-screen modal overlay.  An event whose guard fails
leaves the state unchanged and emits nothing. -/
def step (s : ControllerState) : Event → ControllerState × List Effect
  | .fetchResolve outcome =>
    if s.fetchPending then fetchNoteResult s outcome else (s, [])
  | .clickEditOrSave =>
    if !editSaveDisabled s && !modalBlocked s then handleEditOrSave s else (s, [])
  | .saveResolve ok =>
    if s.savePending then handleEditOrSaveResult s ok else (s, [])
  | .toggleDropdown =>
    if !modalBlocked s then ({ s with showDropdown := !s.showDropdown }, []) else (s, [])
  | .outsideMousedown =>
    if s.showDropdown then ({ s with showDropdown := false }, []) else (s, [])
  | .clickCopyURL =>
    if s.showDropdown && !modalBlocked s then handleCopyURL s else (s, [])
  | .clipboardResolve ok =>
    if s.clipboardPending > 0 then handleCopyURLResult s ok else (s, [])
  | .clickDeleteItem =>
    if s.showDropdown && !modalBlocked s then
      ({ s with showModal := true, showDropdown := false }, [])
    else (s, [])
  | .clickCancelDelete =>
    if s.showModal then ({ s with showModal := false }, []) else (s, [])
  | .clickConfirmDelete =>
    if s.showModal && !s.loading then handleDelete s else (s, [])
  | .deleteResolve ok =>
    if s.deletePending then handleDeleteResult s ok else (s, [])
  | .clickDismissCopy =>
    if s.showCopyModal then ({ s with showCopyModal := false }, []) else (s, [])
  | .setDraft text =>
    if s.isEditing && !modalBlocked s then ({ s with noteContent := text }, [])
    else (s, [])

/-- State at mount (lines 18-24 initial values); the mount effect starts
`fetchNote` at once (line 56), so the fetch is already pending and
`loading` starts `true`. -/
def initState (href : String) : ControllerState :=
  { noteContent := "", createdAt := none, loading := true, isEditing := false,
    showDropdown := false, showModal := false, showCopyModal := false,
    fetchPending := true, savePending := false, deletePending := false,
    clipboardPending := 0, locationHref := href }

/-- States the controller can reach from mount. -/
inductive Reachable (href : String) : ControllerState → Prop
  | init : Reachable href (initState href)
  | next {s : ControllerState} (e : Event) :
      Reachable href s → Reachable href (step s e).1

/-- What the body of the page renders (lines 182-194). -/
inductive Body
  /-- The editing textarea, holding the draft (lines 183-188). -/
  | editor (draft : String)
  /-- The Viewing markup: `marked(noteContent)` is applied to exactly this
  source text (lines 190-193). -/
  | viewer (markdownSource : String)
deriving DecidableEq

/-- Body rendering dispatch (line 182): textarea in Editing, markdown view
otherwise, both over the single `noteContent` value. -/
def renderBody (s : ControllerState) : Body :=
  if s.isEditing then .editor s.noteContent else .viewer s.noteContent

/-- The header date line (line 126): `{createdAt || "Loading..."}`. -/
def headerDate (s : ControllerState) : String :=
  jsOrString s.createdAt "Loading..."

/-- Number of simultaneously visible overlay surfaces. -/
def overlayCount (s : ControllerState) : Nat :=
  s.showDropdown.toNat + s.showModal.toNat + s.showCopyModal.toNat

/-- Number of in-flight document-store operations. -/
def inFlightCount (s : ControllerState) : Nat :=
  s.fetchPending.toNat + s.savePending.toNat + s.deletePending.toNat

/-! ### Synchronous-clipboard restriction

`handleCopyURL` opens the copy modal only in a promise callback, so whether
overlays exclude each other depends on when that callback runs.  The
restricted transition below forces the clipboard promise to settle
atomically with the Copy URL click, i.e. before any further event. -/

/-- Copy URL click whose clipboard promise settles immediately. -/
def stepCopyAtomic (s : ControllerState) (ok : Bool) : ControllerState × List Effect :=
  let r1 := step s .clickCopyURL
  let r2 := step r1.1 (.clipboardResolve ok)
  (r2.1, r1.2 ++ r2.2)

/-- States reachable when every clipboard write settles atomically with its
request; all other events are unrestricted. -/
inductive ReachableSync (href : String) : ControllerState → Prop
  | init : ReachableSync href (initState href)
  | next {s : ControllerState} (e : Event) (hcopy : e ≠ Event.clickCopyURL)
      (hres : ∀ ok, e ≠ Event.clipboardResolve ok) :
      ReachableSync href s → ReachableSync href (step s e).1
  | copy {s : ControllerState} (ok : Bool) :
      ReachableSync href s → ReachableSync href (stepCopyAtomic s ok).1

/-- Inductive invariant of the synchronous-clipboard model: overlays are
mutually exclusive and no clipboard promise is outstanding. -/
def syncOverlayInv (s : ControllerState) : Prop :=
  overlayCount s ≤ 1 ∧ s.clipboardPending = 0

/-! ### In-flight store operations

The `disabled={loading}` guards tie the pending store calls to `loading`:
no store operation can start unless `loading` is clear, and every store
operation sets `loading` for its entire flight. -/

/-- Inductive invariant: at most one store operation is in flight, and none
at all while `loading` is clear. -/
def inFlightInv (s : ControllerState) : Prop :=
  inFlightCount s ≤ 1 ∧ (s.loading = false → inFlightCount s = 0)


/-! ### Concrete states used in witnesses and counterexamples -/

/-- State reached by: open the menu, click Copy URL (clipboard still
pending), reopen the menu, then the clipboard promise fulfils.  The
`setShowDropdown(false)` of `handleCopyURL` ran before the menu was
reopened, and the fulfilment callback only shows the copy modal, so both
the dropdown and the copy modal end up visible. -/
def overlapState : ControllerState :=
  (step (step (step (step (initState "https://annoote.app/n1")
    Event.toggleDropdown).1 Event.clickCopyURL).1
    Event.toggleDropdown).1 (Event.clipboardResolve true)).1

/-- A Viewing-turned-Editing state with a draft, used to instantiate the
save theorems. -/
def editingState : ControllerState :=
  { initState "https://annoote.app/n1" with
    isEditing := true, loading := false, fetchPending := false,
    noteContent := "updated text" }

/-- A state showing the delete-confirmation modal, used to instantiate the
delete theorem. -/
def deleteModalState : ControllerState :=
  { initState "https://annoote.app/n1" with
    showModal := true, loading := false, fetchPending := false }

/-- A Viewing state with the options menu open, used to instantiate the
copy-URL theorem. -/
def dropdownOpenState : ControllerState :=
  { initState "https://annoote.app/n1" with
    showDropdown := true, loading := false, fetchPending := false }

theorem digitChar_isDigit {k : Nat} (hk : k < 10) : (digitChar k).isDigit = true := by
  interval_cases k <;> decide

theorem natDigits_isDigit (n : Nat) : ∀ c ∈ natDigits n, c.isDigit = true := by
  induction n using Nat.strong_induction_on with
  | _ n ih =>
    rw [natDigits]
    split
    · intro c hc
      simp only [List.mem_singleton] at hc
      subst hc
      exact digitChar_isDigit (by omega)
    · intro c hc
      rw [List.mem_append] at hc
      rcases hc with h | h
      · exact ih (n / 10) (Nat.div_lt_self (by omega) (by omega)) c h
      · simp only [List.mem_singleton] at h
        subst h
        exact digitChar_isDigit (Nat.mod_lt _ (by omega))

theorem natDigits_length_le (k : Nat) : ∀ n : Nat, n < 10 ^ (k + 1) →
    (natDigits n).length ≤ k + 1 := by
  induction k with
  | zero =>
    intro n hn
    rw [natDigits]
    split
    · simp
    · omega
  | succ k ih =>
    intro n hn
    rw [natDigits]
    split
    · simp
    · rw [List.length_append, List.length_singleton]
      have hdiv : n / 10 < 10 ^ (k + 1) := by
        rw [Nat.div_lt_iff_lt_mul (by omega)]
        calc n < 10 ^ (k + 1 + 1) := hn
        _ = 10 ^ (k + 1) * 10 := by ring
      have := ih (n / 10) hdiv
      omega

theorem natDigits_length_pos (n : Nat) : 1 ≤ (natDigits n).length := by
  rw [natDigits]
  split
  · simp
  · rw [List.length_append, List.length_singleton]
    omega

theorem padLeft_length {k : Nat} {cs : List Char} (h : cs.length ≤ k) :
    (padLeft k cs).length = k := by
  simp only [padLeft, List.length_append, List.length_replicate]
  omega

theorem padLeft_isDigit {k : Nat} {cs : List Char}
    (h : ∀ c ∈ cs, c.isDigit = true) :
    ∀ c ∈ padLeft k cs, c.isDigit = true := by
  intro c hc
  rw [padLeft, List.mem_append] at hc
  rcases hc with hrep | hmem
  · have := List.eq_of_mem_replicate hrep
    subst this
    decide
  · exact h c hmem

theorem exists_of_length_four {l : List Char} (h : l.length = 4) :
    ∃ a b c d, l = [a, b, c, d] := by
  match l, h with
  | [a, b, c, d], _ => exact ⟨a, b, c, d, rfl⟩

theorem exists_of_length_two {l : List Char} (h : l.length = 2) :
    ∃ a b, l = [a, b] := by
  match l, h with
  | [a, b], _ => exact ⟨a, b, rfl⟩

theorem formatYYYYMMDD_shape {t : Timestamp} (hy : t.year ≤ 9999)
    (hm : t.month ≤ 99) (hd : t.day ≤ 99) :
    isYYYYMMDD (formatYYYYMMDD t) = true := by
  have hylen : (padLeft 4 (natDigits t.year)).length = 4 :=
    padLeft_length (natDigits_length_le 3 t.year (by omega))
  have hmlen : (padLeft 2 (natDigits t.month)).length = 2 :=
    padLeft_length (natDigits_length_le 1 t.month (by omega))
  have hdlen : (padLeft 2 (natDigits t.day)).length = 2 :=
    padLeft_length (natDigits_length_le 1 t.day (by omega))
  have hydig := padLeft_isDigit (k := 4) (natDigits_isDigit t.year)
  have hmdig := padLeft_isDigit (k := 2) (natDigits_isDigit t.month)
  have hddig := padLeft_isDigit (k := 2) (natDigits_isDigit t.day)
  obtain ⟨a, b, c, d, hy4⟩ := exists_of_length_four hylen
  obtain ⟨e, f, hm2⟩ := exists_of_length_two hmlen
  obtain ⟨g, h, hd2⟩ := exists_of_length_two hdlen
  rw [hy4] at hydig
  rw [hm2] at hmdig
  rw [hd2] at hddig
  simp only [List.mem_cons, List.not_mem_nil, or_false, forall_eq_or_imp,
    forall_eq] at hydig hmdig hddig
  simp only [isYYYYMMDD, formatYYYYMMDD, hy4, hm2, hd2]
  simp only [List.cons_append, List.nil_append, String.data]
  simp only [isYYYYMMDDChars]
  simp [hydig.1, hydig.2.1, hydig.2.2.1, hydig.2.2.2, hmdig.1, hmdig.2,
    hddig.1, hddig.2]

theorem formatYYYYMMDD_ne_empty (t : Timestamp) : formatYYYYMMDD t ≠ "" := by
  intro h
  have hlen : (formatYYYYMMDD t).data.length = 0 := by rw [h]; rfl
  simp only [formatYYYYMMDD, String.data, List.length_append] at hlen
  simp at hlen

theorem step_preserves_syncOverlayInv {s : ControllerState} (e : Event)
    (hcopy : e ≠ Event.clickCopyURL) (h : syncOverlayInv s) :
    syncOverlayInv (step s e).1 := by
  obtain ⟨h1, h2⟩ := h
  cases e with
  | fetchResolve outcome =>
    cases outcome <;>
      simp_all [step, fetchNoteResult, syncOverlayInv, overlayCount] <;>
      split_ifs <;> simp_all
  | clickEditOrSave =>
    simp only [step, handleEditOrSave]
    split_ifs <;> exact ⟨h1, h2⟩
  | saveResolve ok =>
    simp only [step, handleEditOrSaveResult]
    split_ifs <;> exact ⟨h1, h2⟩
  | toggleDropdown =>
    simp only [step, modalBlocked] at *
    split_ifs with hg
    · simp only [Bool.not_eq_true', Bool.or_eq_false_iff] at hg
      refine ⟨?_, h2⟩
      simp only [overlayCount, hg.1, hg.2, Bool.toNat_false] at *
      cases s.showDropdown <;> simp
    · exact ⟨h1, h2⟩
  | outsideMousedown =>
    simp only [step]
    split_ifs with hg
    · refine ⟨?_, h2⟩
      simp only [overlayCount, Bool.toNat_false] at *
      omega
    · exact ⟨h1, h2⟩
  | clickCopyURL => exact absurd rfl hcopy
  | clipboardResolve ok =>
    simp only [step]
    split_ifs with hg
    · omega
    · exact ⟨h1, h2⟩
  | clickDeleteItem =>
    simp only [step, modalBlocked] at *
    split_ifs with hg
    · simp only [Bool.and_eq_true, Bool.not_eq_true', Bool.or_eq_false_iff] at hg
      refine ⟨?_, h2⟩
      simp [overlayCount, hg.2.2]
    · exact ⟨h1, h2⟩
  | clickCancelDelete =>
    simp only [step]
    split_ifs with hg
    · refine ⟨?_, h2⟩
      simp only [overlayCount, Bool.toNat_false] at *
      omega
    · exact ⟨h1, h2⟩
  | clickConfirmDelete =>
    simp only [step, handleDelete]
    split_ifs <;> exact ⟨h1, h2⟩
  | deleteResolve ok =>
    simp only [step, handleDeleteResult]
    split_ifs <;> first
      | exact ⟨h1, h2⟩
      | · refine ⟨?_, h2⟩
          simp only [overlayCount, Bool.toNat_false] at *
          omega
  | clickDismissCopy =>
    simp only [step]
    split_ifs with hg
    · refine ⟨?_, h2⟩
      simp only [overlayCount, Bool.toNat_false] at *
      omega
    · exact ⟨h1, h2⟩
  | setDraft text =>
    simp only [step]
    split_ifs <;> exact ⟨h1, h2⟩

theorem stepCopyAtomic_preserves_syncOverlayInv {s : ControllerState} (ok : Bool)
    (h : syncOverlayInv s) : syncOverlayInv (stepCopyAtomic s ok).1 := by
  obtain ⟨h1, h2⟩ := h
  by_cases hg : (s.showDropdown && !modalBlocked s) = true
  · have hd := hg
    simp only [Bool.and_eq_true, Bool.not_eq_true', Bool.or_eq_false_iff,
      modalBlocked] at hd
    cases ok <;>
      simp [stepCopyAtomic, step, handleCopyURL, handleCopyURLResult,
        syncOverlayInv, overlayCount, hg, hd.2.1, hd.2.2, h2]
  · have e1 : step s Event.clickCopyURL = (s, []) := by
      simp only [step, if_neg hg]
    have e2 : step s (Event.clipboardResolve ok) = (s, []) := by
      simp [step, h2]
    simp only [stepCopyAtomic, e1, e2]
    exact ⟨h1, h2⟩

theorem reachableSync_syncOverlayInv {href : String} {s : ControllerState}
    (h : ReachableSync href s) : syncOverlayInv s := by
  induction h with
  | init => exact ⟨by simp [overlayCount, initState], rfl⟩
  | next e hcopy hres _ ih => exact step_preserves_syncOverlayInv e hcopy ih
  | copy ok _ ih => exact stepCopyAtomic_preserves_syncOverlayInv ok ih

theorem step_preserves_inFlightInv {s : ControllerState} (e : Event)
    (h : inFlightInv s) : inFlightInv (step s e).1 := by
  obtain ⟨h1, h2⟩ := h
  cases e with
  | fetchResolve outcome =>
    simp only [step]
    split_ifs with hg
    · have hsv : s.savePending = false := by
        by_contra hc; rw [Bool.not_eq_false] at hc
        simp only [inFlightCount, hg, hc, Bool.toNat_true] at h1; omega
      have hdl : s.deletePending = false := by
        by_contra hc; rw [Bool.not_eq_false] at hc
        simp only [inFlightCount, hg, hc, Bool.toNat_true] at h1; omega
      cases outcome <;>
        simp [fetchNoteResult, inFlightInv, inFlightCount, hsv, hdl]
    · exact ⟨h1, h2⟩
  | clickEditOrSave =>
    simp only [step, editSaveDisabled, modalBlocked]
    split_ifs with hg
    · have hl : s.loading = false := by
        simp only [Bool.and_eq_true, Bool.not_eq_true'] at hg
        exact hg.1
      have h0 := h2 hl
      have hf : s.fetchPending = false := by
        by_contra hc; rw [Bool.not_eq_false] at hc
        simp only [inFlightCount, hc, Bool.toNat_true] at h0; omega
      have hsv : s.savePending = false := by
        by_contra hc; rw [Bool.not_eq_false] at hc
        simp only [inFlightCount, hc, Bool.toNat_true] at h0; omega
      have hdl : s.deletePending = false := by
        by_contra hc; rw [Bool.not_eq_false] at hc
        simp only [inFlightCount, hc, Bool.toNat_true] at h0; omega
      by_cases he : s.isEditing = true <;>
        simp [handleEditOrSave, he, inFlightInv, inFlightCount, hf, hsv, hdl, hl]
    · exact ⟨h1, h2⟩
  | saveResolve ok =>
    simp only [step]
    split_ifs with hg
    · have hf : s.fetchPending = false := by
        by_contra hc; rw [Bool.not_eq_false] at hc
        simp only [inFlightCount, hg, hc, Bool.toNat_true] at h1; omega
      have hdl : s.deletePending = false := by
        by_contra hc; rw [Bool.not_eq_false] at hc
        simp only [inFlightCount, hg, hc, Bool.toNat_true] at h1; omega
      cases ok <;>
        simp [handleEditOrSaveResult, inFlightInv, inFlightCount, hf, hdl]
    · exact ⟨h1, h2⟩
  | toggleDropdown =>
    simp only [step, modalBlocked]
    split_ifs <;>
      exact ⟨by simpa [inFlightCount] using h1, by simpa [inFlightCount] using h2⟩
  | outsideMousedown =>
    simp only [step]
    split_ifs <;>
      exact ⟨by simpa [inFlightCount] using h1, by simpa [inFlightCount] using h2⟩
  | clickCopyURL =>
    simp only [step, modalBlocked, handleCopyURL]
    split_ifs <;>
      exact ⟨by simpa [inFlightCount] using h1, by simpa [inFlightCount] using h2⟩
  | clipboardResolve ok =>
    simp only [step]
    split_ifs with hg
    · cases ok <;>
        simp only [handleCopyURLResult] <;>
        exact ⟨by simpa [inFlightCount] using h1, by simpa [inFlightCount] using h2⟩
    · exact ⟨h1, h2⟩
  | clickDeleteItem =>
    simp only [step, modalBlocked]
    split_ifs <;>
      exact ⟨by simpa [inFlightCount] using h1, by simpa [inFlightCount] using h2⟩
  | clickCancelDelete =>
    simp only [step]
    split_ifs <;>
      exact ⟨by simpa [inFlightCount] using h1, by simpa [inFlightCount] using h2⟩
  | clickConfirmDelete =>
    simp only [step]
    split_ifs with hg
    · have hl : s.loading = false := by
        simp only [Bool.and_eq_true, Bool.not_eq_true'] at hg
        exact hg.2
      have h0 := h2 hl
      have hf : s.fetchPending = false := by
        by_contra hc; rw [Bool.not_eq_false] at hc
        simp only [inFlightCount, hc, Bool.toNat_true] at h0; omega
      have hsv : s.savePending = false := by
        by_contra hc; rw [Bool.not_eq_false] at hc
        simp only [inFlightCount, hc, Bool.toNat_true] at h0; omega
      simp [handleDelete, inFlightInv, inFlightCount, hf, hsv]
    · exact ⟨h1, h2⟩
  | deleteResolve ok =>
    simp only [step]
    split_ifs with hg
    · have hf : s.fetchPending = false := by
        by_contra hc; rw [Bool.not_eq_false] at hc
        simp only [inFlightCount, hg, hc, Bool.toNat_true] at h1; omega
      have hsv : s.savePending = false := by
        by_contra hc; rw [Bool.not_eq_false] at hc
        simp only [inFlightCount, hg, hc, Bool.toNat_true] at h1; omega
      cases ok <;>
        simp [handleDeleteResult, inFlightInv, inFlightCount, hf, hsv]
    · exact ⟨h1, h2⟩
  | clickDismissCopy =>
    simp only [step]
    split_ifs <;>
      exact ⟨by simpa [inFlightCount] using h1, by simpa [inFlightCount] using h2⟩
  | setDraft text =>
    simp only [step, modalBlocked]
    split_ifs <;>
      exact ⟨by simpa [inFlightCount] using h1, by simpa [inFlightCount] using h2⟩

theorem reachable_inFlightInv {href : String} {s : ControllerState}
    (h : Reachable href s) : inFlightInv s := by
  induction h with
  | init => exact ⟨by simp [inFlightCount, initState], by simp [initState]⟩
  | next e _ ih => exact step_preserves_inFlightInv e ih

/-! ### Claims -/

/-- C1, counterexample: the mutual-exclusion invariant fails on the code.
`overlapState` is reachable — open the menu, click Copy URL, reopen the
menu while the clipboard promise is pending, let the promise fulfil — and
shows the OptionsMenu (`showDropdown`) and the CopyConfirm
(`showCopyModal`) at the same time, because `handleCopyURL` closes the
dropdown synchronously but opens the copy modal only in the later `then`
callback, which closes nothing. -/
theorem claim1_overlay_counterexample :
    Reachable "https://annoote.app/n1" overlapState ∧
      overlapState.showDropdown = true ∧ overlapState.showCopyModal = true ∧
      overlayCount overlapState = 2 := by
  refine ⟨?_, rfl, rfl, rfl⟩
  exact Reachable.next (Event.clipboardResolve true)
    (Reachable.next Event.toggleDropdown
      (Reachable.next Event.clickCopyURL
        (Reachable.next Event.toggleDropdown Reachable.init)))

/-- C1, amended: in every execution in which each clipboard write settles
atomically with its Copy URL click (so no clipboard promise is pending when
another event runs), at most one of the three overlay surfaces is visible
at every reachable state. -/
theorem claim1_overlay_exclusive_sync (href : String) (s : ControllerState)
    (h : ReachableSync href s) : overlayCount s ≤ 1 :=
  (reachableSync_syncOverlayInv h).1

/-- C1 witness: the amended theorem applied at the initial state. -/
theorem claim1_overlay_exclusive_sync_witness :
    overlayCount (initState "https://annoote.app/n1") ≤ 1 :=
  claim1_overlay_exclusive_sync "https://annoote.app/n1"
    (initState "https://annoote.app/n1") ReachableSync.init

/-- C2: for every draft, if the Save click's `updateDoc` rejects, the
controller stays in Editing (`setIsEditing(false)` is skipped), the draft
`noteContent` is exactly what it was before the attempt, the alert
`"Failed to save the note."` is raised, and nothing is retried: the failed
settlement clears the pending flag and its only effects are the log and
the alert — no further `storeUpdate` is issued. -/
theorem claim2_save_failure_preserves_draft (s : ControllerState)
    (hedit : s.isEditing = true) (henabled : s.loading = false)
    (hvis : modalBlocked s = false) :
    ((step (step s Event.clickEditOrSave).1 (Event.saveResolve false)).1.isEditing
        = true ∧
      (step (step s Event.clickEditOrSave).1
          (Event.saveResolve false)).1.noteContent = s.noteContent) ∧
    (step (step s Event.clickEditOrSave).1 (Event.saveResolve false)).2 =
        [Effect.consoleError, Effect.alertMsg "Failed to save the note."] ∧
    (step (step s Event.clickEditOrSave).1
        (Event.saveResolve false)).1.savePending = false := by
  simp [step, editSaveDisabled, handleEditOrSave, handleEditOrSaveResult,
    hedit, henabled, hvis]

/-- C2 witness: the save-failure theorem at a concrete Editing state. -/
theorem claim2_save_failure_preserves_draft_witness :
    ((step (step editingState Event.clickEditOrSave).1
        (Event.saveResolve false)).1.isEditing = true ∧
      (step (step editingState Event.clickEditOrSave).1
          (Event.saveResolve false)).1.noteContent = editingState.noteContent) ∧
    (step (step editingState Event.clickEditOrSave).1 (Event.saveResolve false)).2 =
        [Effect.consoleError, Effect.alertMsg "Failed to save the note."] ∧
    (step (step editingState Event.clickEditOrSave).1
        (Event.saveResolve false)).1.savePending = false :=
  claim2_save_failure_preserves_draft editingState rfl rfl rfl

/-- C3: saving a draft `c1` issues exactly one `updateDoc` carrying `c1`;
if it fulfils (and no other event touches the draft in between), the
controller leaves Editing and the Viewing body applies the markdown
transform to exactly `c1`. -/
theorem claim3_save_roundtrip (s : ControllerState) (c1 : String)
    (hedit : s.isEditing = true) (hdraft : s.noteContent = c1)
    (henabled : s.loading = false) (hvis : modalBlocked s = false) :
    (step s Event.clickEditOrSave).2 = [Effect.storeUpdate c1] ∧
    (step (step s Event.clickEditOrSave).1 (Event.saveResolve true)).1.isEditing
        = false ∧
    renderBody (step (step s Event.clickEditOrSave).1
        (Event.saveResolve true)).1 = Body.viewer c1 := by
  subst hdraft
  simp [step, editSaveDisabled, handleEditOrSave, handleEditOrSaveResult,
    renderBody, hedit, henabled, hvis]

/-- C3 witness: the round-trip theorem at a concrete Editing state holding
the draft `"updated text"`. -/
theorem claim3_save_roundtrip_witness :
    (step editingState Event.clickEditOrSave).2 =
        [Effect.storeUpdate "updated text"] ∧
    (step (step editingState Event.clickEditOrSave).1
        (Event.saveResolve true)).1.isEditing = false ∧
    renderBody (step (step editingState Event.clickEditOrSave).1
        (Event.saveResolve true)).1 = Body.viewer "updated text" :=
  claim3_save_roundtrip editingState "updated text" rfl rfl rfl rfl

/-- C4: from the freshly mounted state, if the document is missing or the
fetch rejects, the settlement emits `router.push("/")` and the content
stays the initial empty string: nothing from any document is rendered. -/
theorem claim4_load_failure_navigates_home (href : String)
    (outcome : FetchOutcome)
    (h : outcome = FetchOutcome.notFound ∨ outcome = FetchOutcome.failure) :
    Effect.navigateHome ∈ (step (initState href) (Event.fetchResolve outcome)).2 ∧
    (step (initState href) (Event.fetchResolve outcome)).1.noteContent = "" ∧
    renderBody (step (initState href) (Event.fetchResolve outcome)).1 =
        Body.viewer "" := by
  rcases h with h | h <;> subst h <;>
    simp [step, initState, fetchNoteResult, renderBody]

/-- C4 witness: the not-found outcome at a concrete mount. -/
theorem claim4_load_failure_navigates_home_witness :
    Effect.navigateHome ∈ (step (initState "https://annoote.app/missing")
        (Event.fetchResolve FetchOutcome.notFound)).2 ∧
    (step (initState "https://annoote.app/missing")
        (Event.fetchResolve FetchOutcome.notFound)).1.noteContent = "" ∧
    renderBody (step (initState "https://annoote.app/missing")
        (Event.fetchResolve FetchOutcome.notFound)).1 = Body.viewer "" :=
  claim4_load_failure_navigates_home "https://annoote.app/missing"
    FetchOutcome.notFound (Or.inl rfl)

/-- C5: a successful load sets the displayed date to the literal
`"Unknown"` when the document carries no `createdAt`, and to
`format(createdAt.toDate(), "yyyy-MM-dd")` when it does; for any timestamp
with a four-digit year and two-digit month and day fields the formatted
string has the `YYYY-MM-DD` shape. -/
theorem claim5_created_at_display (s : ControllerState) (data : NoteData)
    (hp : s.fetchPending = true) :
    (data.createdAt = none →
      (step s (Event.fetchResolve (FetchOutcome.success data))).1.createdAt =
          some "Unknown" ∧
      headerDate (step s (Event.fetchResolve (FetchOutcome.success data))).1 =
          "Unknown") ∧
    (∀ t : Timestamp, data.createdAt = some t →
      (step s (Event.fetchResolve (FetchOutcome.success data))).1.createdAt =
          some (formatYYYYMMDD t) ∧
      headerDate (step s (Event.fetchResolve (FetchOutcome.success data))).1 =
          formatYYYYMMDD t ∧
      (t.year ≤ 9999 → t.month ≤ 99 → t.day ≤ 99 →
        isYYYYMMDD (formatYYYYMMDD t) = true)) := by
  constructor
  · intro hnone
    simp [step, hp, fetchNoteResult, hnone, headerDate, jsOrString]
  · intro t ht
    refine ⟨?_, ?_, fun hy hm hd => formatYYYYMMDD_shape hy hm hd⟩
    · simp [step, hp, fetchNoteResult, ht]
    · simp [step, hp, fetchNoteResult, ht, headerDate, jsOrString,
        formatYYYYMMDD_ne_empty t]

/-- C5 witness: a successful load with `createdAt` present, at a concrete
timestamp. -/
theorem claim5_created_at_display_witness :
    (step (initState "https://annoote.app/n1")
        (Event.fetchResolve (FetchOutcome.success
          ⟨some "hello", some ⟨2024, 5, 7⟩⟩))).1.createdAt =
      some (formatYYYYMMDD ⟨2024, 5, 7⟩) ∧
    isYYYYMMDD (formatYYYYMMDD (⟨2024, 5, 7⟩ : Timestamp)) = true := by
  have h := claim5_created_at_display (initState "https://annoote.app/n1")
    ⟨some "hello", some ⟨2024, 5, 7⟩⟩ rfl
  exact ⟨(h.2 ⟨2024, 5, 7⟩ rfl).1,
    (h.2 ⟨2024, 5, 7⟩ rfl).2.2 (by decide) (by decide) (by decide)⟩

/-- C6: in every reachable state in which a fetch, save or delete is in
flight (`loading` is then set, the code's Loading/Saving/Deleting window),
the Edit/Save button is disabled (`disabled={loading}`) and clicking it
changes nothing and emits nothing; consequently at most one mutating store
operation is ever in flight. -/
theorem claim6_inflight_discipline :
    (∀ (href : String) (s : ControllerState), Reachable href s →
      (s.fetchPending = true ∨ s.savePending = true ∨ s.deletePending = true) →
      editSaveDisabled s = true ∧ step s Event.clickEditOrSave = (s, [])) ∧
    (∀ (href : String) (s : ControllerState), Reachable href s →
      inFlightCount s ≤ 1) := by
  have key : ∀ (href : String) (s : ControllerState), Reachable href s →
      (s.fetchPending = true ∨ s.savePending = true ∨ s.deletePending = true) →
      s.loading = true := by
    intro href s h hp
    obtain ⟨h1, h2⟩ := reachable_inFlightInv h
    by_contra hl
    rw [Bool.not_eq_true] at hl
    have h0 := h2 hl
    rcases hp with hp | hp | hp <;>
      simp only [inFlightCount, hp, Bool.toNat_true] at h0 <;> omega
  constructor
  · intro href s h hp
    have hl := key href s h hp
    refine ⟨hl, ?_⟩
    simp [step, editSaveDisabled, hl]
  · intro href s h
    exact (reachable_inFlightInv h).1

/-- C6 witness: the discipline at the mount state, whose fetch is in
flight. -/
theorem claim6_inflight_discipline_witness :
    (editSaveDisabled (initState "https://annoote.app/n1") = true ∧
      step (initState "https://annoote.app/n1") Event.clickEditOrSave =
        (initState "https://annoote.app/n1", [])) ∧
    inFlightCount (initState "https://annoote.app/n1") ≤ 1 :=
  ⟨claim6_inflight_discipline.1 "https://annoote.app/n1"
      (initState "https://annoote.app/n1") Reachable.init (Or.inl rfl),
    claim6_inflight_discipline.2 "https://annoote.app/n1"
      (initState "https://annoote.app/n1") Reachable.init⟩

/-- C7: clicking Copy URL writes `window.location.href` to the clipboard
and closes the dropdown at once; a fulfilment then opens the CopyConfirm
modal, a rejection raises `"Failed to copy URL."` and leaves every other
overlay flag as it was — and in both outcomes the dropdown stays closed. -/
theorem claim7_copy_url (s : ControllerState)
    (hdrop : s.showDropdown = true) (hvis : modalBlocked s = false) :
    (step s Event.clickCopyURL).2 = [Effect.clipboardWrite s.locationHref] ∧
    (step s Event.clickCopyURL).1.showDropdown = false ∧
    ((step (step s Event.clickCopyURL).1
        (Event.clipboardResolve true)).1.showCopyModal = true ∧
      (step (step s Event.clickCopyURL).1
        (Event.clipboardResolve true)).1.showDropdown = false) ∧
    ((step (step s Event.clickCopyURL).1 (Event.clipboardResolve false)).2 =
        [Effect.alertMsg "Failed to copy URL."] ∧
      (step (step s Event.clickCopyURL).1
        (Event.clipboardResolve false)).1.showCopyModal = s.showCopyModal ∧
      (step (step s Event.clickCopyURL).1
        (Event.clipboardResolve false)).1.showModal = s.showModal ∧
      (step (step s Event.clickCopyURL).1
        (Event.clipboardResolve false)).1.showDropdown = false) := by
  simp [step, handleCopyURL, handleCopyURLResult, hdrop, hvis]

/-- C7 witness: the Copy URL contract at a concrete state with the menu
open. -/
theorem claim7_copy_url_witness :
    (step dropdownOpenState Event.clickCopyURL).2 =
        [Effect.clipboardWrite dropdownOpenState.locationHref] ∧
    (step dropdownOpenState Event.clickCopyURL).1.showDropdown = false ∧
    ((step (step dropdownOpenState Event.clickCopyURL).1
        (Event.clipboardResolve true)).1.showCopyModal = true ∧
      (step (step dropdownOpenState Event.clickCopyURL).1
        (Event.clipboardResolve true)).1.showDropdown = false) ∧
    ((step (step dropdownOpenState Event.clickCopyURL).1
        (Event.clipboardResolve false)).2 =
        [Effect.alertMsg "Failed to copy URL."] ∧
      (step (step dropdownOpenState Event.clickCopyURL).1
        (Event.clipboardResolve false)).1.showCopyModal =
        dropdownOpenState.showCopyModal ∧
      (step (step dropdownOpenState Event.clickCopyURL).1
        (Event.clipboardResolve false)).1.showModal =
        dropdownOpenState.showModal ∧
      (step (step dropdownOpenState Event.clickCopyURL).1
        (Event.clipboardResolve false)).1.showDropdown = false) :=
  claim7_copy_url dropdownOpenState rfl rfl

/-- C8: a `deleteDoc` is only ever issued by the confirmation button while
the DeleteConfirm modal is up (first conjunct); confirming starts exactly
one delete, whose fulfilment navigates home and whose rejection raises
`"Failed to delete the note."`, closes the modal, clears `loading` back to
its prior (enabled) value and leaves the remaining local state as it was. -/
theorem claim8_delete_flow :
    (∀ (s : ControllerState) (e : Event),
      Effect.storeDelete ∈ (step s e).2 →
      e = Event.clickConfirmDelete ∧ s.showModal = true ∧ s.loading = false) ∧
    (∀ s : ControllerState, s.showModal = true → s.loading = false →
      (step s Event.clickConfirmDelete).2 = [Effect.storeDelete] ∧
      (step s Event.clickConfirmDelete).1.deletePending = true ∧
      (Effect.navigateHome ∈
          (step (step s Event.clickConfirmDelete).1
            (Event.deleteResolve true)).2 ∧
        (step (step s Event.clickConfirmDelete).1
            (Event.deleteResolve true)).1.showModal = false) ∧
      (Effect.alertMsg "Failed to delete the note." ∈
          (step (step s Event.clickConfirmDelete).1
            (Event.deleteResolve false)).2 ∧
        (step (step s Event.clickConfirmDelete).1
            (Event.deleteResolve false)).1.showModal = false ∧
        (step (step s Event.clickConfirmDelete).1
            (Event.deleteResolve false)).1.loading = false ∧
        (step (step s Event.clickConfirmDelete).1
            (Event.deleteResolve false)).1.isEditing = s.isEditing ∧
        (step (step s Event.clickConfirmDelete).1
            (Event.deleteResolve false)).1.noteContent = s.noteContent)) := by
  constructor
  · intro s e hmem
    cases e with
    | fetchResolve outcome =>
      simp only [step] at hmem
      split_ifs at hmem
      · cases outcome <;> simp [fetchNoteResult] at hmem
      · simp at hmem
    | clickEditOrSave =>
      simp only [step, handleEditOrSave] at hmem
      split_ifs at hmem <;> simp at hmem
    | saveResolve ok =>
      simp only [step, handleEditOrSaveResult] at hmem
      split_ifs at hmem <;> simp at hmem
    | toggleDropdown =>
      simp only [step] at hmem
      split_ifs at hmem <;> simp at hmem
    | outsideMousedown =>
      simp only [step] at hmem
      split_ifs at hmem <;> simp at hmem
    | clickCopyURL =>
      simp only [step, handleCopyURL] at hmem
      split_ifs at hmem <;> simp at hmem
    | clipboardResolve ok =>
      simp only [step, handleCopyURLResult] at hmem
      split_ifs at hmem <;> simp at hmem
    | clickDeleteItem =>
      simp only [step] at hmem
      split_ifs at hmem <;> simp at hmem
    | clickCancelDelete =>
      simp only [step] at hmem
      split_ifs at hmem <;> simp at hmem
    | clickConfirmDelete =>
      simp only [step, handleDelete] at hmem
      split_ifs at hmem with hg
      · simp only [Bool.and_eq_true, Bool.not_eq_true'] at hg
        exact ⟨rfl, hg.1, hg.2⟩
      · simp at hmem
    | deleteResolve ok =>
      simp only [step, handleDeleteResult] at hmem
      split_ifs at hmem <;> simp at hmem
    | clickDismissCopy =>
      simp only [step] at hmem
      split_ifs at hmem <;> simp at hmem
    | setDraft text =>
      simp only [step] at hmem
      split_ifs at hmem <;> simp at hmem
  · intro s hm hl
    simp [step, handleDelete, handleDeleteResult, hm, hl]

/-- C8 witness: the delete contract at a concrete state showing the
confirmation modal, with the only-after-confirmation hypothesis discharged
by evaluation. -/
theorem claim8_delete_flow_witness :
    (step deleteModalState Event.clickConfirmDelete).2 = [Effect.storeDelete] ∧
    deleteModalState.showModal = true ∧
    Effect.navigateHome ∈
      (step (step deleteModalState Event.clickConfirmDelete).1
        (Event.deleteResolve true)).2 :=
  ⟨(claim8_delete_flow.2 deleteModalState rfl rfl).1,
    (claim8_delete_flow.1 deleteModalState Event.clickConfirmDelete
      (by decide)).2.1,
    (claim8_delete_flow.2 deleteModalState rfl rfl).2.2.1.1⟩

/-- C10: on a successful load of an existing document whose `content` field
is absent or empty (falsy), `noteContent` is set to the empty string by
`noteData?.content || ""`, so rendering always receives a defined string. -/
theorem claim10_falsy_content_empty (s : ControllerState) (data : NoteData)
    (hp : s.fetchPending = true)
    (hfalsy : data.content = none ∨ data.content = some "") :
    (step s (Event.fetchResolve (FetchOutcome.success data))).1.noteContent
      = "" := by
  rcases hfalsy with h | h <;> simp [step, hp, fetchNoteResult, jsOrString, h]

/-- C10 witness: a document with no `content` field. -/
theorem claim10_falsy_content_empty_witness :
    (step (initState "https://annoote.app/n1")
      (Event.fetchResolve (FetchOutcome.success ⟨none, none⟩))).1.noteContent
      = "" :=
  claim10_falsy_content_empty (initState "https://annoote.app/n1")
    ⟨none, none⟩ rfl (Or.inl rfl)

end Annoote
